import Mathlib

/-!
Shallow embedding of the client-side connection core of the `imatic-tech/opcua`
OPC UA stack (package `opcua`, file `client.go`).  Pure control flow of the
client is rendered as Lean functions; the environment (server responses,
transport outcomes, clock readings) is passed in explicitly as parameters.
Machine `uint32` arithmetic is modelled as `Nat` with explicit reduction
modulo `2^32`.
-/

namespace Opcua

/-! ### Status codes (package `ua`)

Numeric values of the OPC UA status codes referenced by the client. -/

def StatusOK : Nat := 0
def StatusBad : Nat := 0x80000000
def StatusBadCertificateInvalid : Nat := 0x80120000
def StatusBadSecureChannelIDInvalid : Nat := 0x80220000
def StatusBadSessionIDInvalid : Nat := 0x80250000
def StatusBadSessionClosed : Nat := 0x80260000
def StatusBadSubscriptionIDInvalid : Nat := 0x80280000
def StatusBadMessageNotAvailable : Nat := 0x80790000
def StatusBadServerNotConnected : Nat := 0x800D0000
def StatusBadUnknownResponse : Nat := 0x80090000

/-- A Go `error` value as the client observes it: either a `ua.StatusCode`
or some other error (carrying an opaque message). -/
inductive GoErr where
  | status (code : Nat)
  | other (msg : String)
deriving DecidableEq

/-! ### Connection state and reconnect actions (`client.go`) -/

/-- `ConnState` is the ua client connection state. -/
inductive ConnState where
  | closed
  | connected
  | connecting
  | disconnected
  | reconnecting
deriving DecidableEq

/-- `reconnectAction` is a list of actions for the client reconnection logic. -/
inductive ReconnectAction where
  | none
  | createSecureChannel
  | restoreSession
  | recreateSession
  | republishSubscriptions
  | restoreSubscriptions
  | abortReconnect
deriving DecidableEq

/-- An error value consumed from the secure channel error signal `c.sechanErr`:
`io.EOF`, `syscall.ECONNREFUSED`, a `*uacp.Error` carrying a status code, or
any other error. -/
inductive ChanErr where
  | eof
  | econnrefused
  | uacpErr (code : Nat)
  | otherErr
deriving DecidableEq

/-- Initial action chosen by `Client.monitor` after consuming one value from
`c.sechanErr`.  `recv = none` models a closed channel (`!ok`).  The result
`none` means the monitor goroutine returns before entering the recovery loop
(closed channel, clean EOF with the client already `Closed`, or auto-reconnect
disabled — in the last case the code assigns `abortReconnect` and returns
immediately, so no recovery action runs). -/
def monitorInitialAction (recv : Option ChanErr) (st : ConnState)
    (autoReconnect : Bool) : Option ReconnectAction :=
  match recv with
  | Option.none => Option.none
  | Option.some err =>
    if err = ChanErr.eof ∧ st = ConnState.closed then Option.none
    else if autoReconnect = false then Option.none
    else Option.some (
      match err with
      | ChanErr.eof => ReconnectAction.createSecureChannel
      | ChanErr.econnrefused => ReconnectAction.abortReconnect
      | ChanErr.uacpErr code =>
        if code = StatusBadSecureChannelIDInvalid then
          ReconnectAction.createSecureChannel
        else if code = StatusBadSessionIDInvalid then
          ReconnectAction.recreateSession
        else if code = StatusBadSubscriptionIDInvalid then
          ReconnectAction.restoreSubscriptions
        else
          -- StatusBadCertificateInvalid falls through to the default branch
          ReconnectAction.createSecureChannel
      | ChanErr.otherErr => ReconnectAction.createSecureChannel)

/-! ### Session creation and closing (`client.go`) -/

/-- The fields of a `ua.CreateSessionResponse` the client consumes. -/
structure CreateSessionResponse where
  authenticationToken : Nat
  serverCertificate : List Nat
  serverNonce : List Nat
deriving DecidableEq

/-- The `Session` value built by `Client.CreateSession`: the response (whose
authentication token is used on later requests), the server certificate and
the server nonce. -/
structure Session where
  authenticationToken : Nat
  serverCertificate : List Nat
  serverNonce : List Nat
deriving DecidableEq

/-- `Client.CreateSession`, given the channel state, the outcome of
`VerifySessionSignature` on the decoded response, and the response itself.
Result `Except.error c` models returning status `c`; `Except.ok s` models
returning session pointer `s` (`Option.none` = nil pointer) with nil error.
When signature verification fails the callback logs and returns early with
`nil`, so the session variable `s` is never assigned. -/
def createSession (channelOpen : Bool) (verifyOK : Bool)
    (res : CreateSessionResponse) : Except Nat (Option Session) :=
  if channelOpen = false then Except.error StatusBadServerNotConnected
  else if verifyOK = false then Except.ok Option.none
  else Except.ok (Option.some
    { authenticationToken := res.authenticationToken
      serverCertificate := res.serverCertificate
      serverNonce := res.serverNonce })

/-- The session name sent by `Client.CreateSession`: the configured name, or
`fmt.Sprintf("gopcua-%d", time.Now().UnixNano())` when it is empty. -/
def sessionNameOf (cfgName : String) (unixNano : Int) : String :=
  if cfgName = "" then "gopcua-" ++ toString unixNano else cfgName

/-- The fields of a `ua.CloseSessionRequest` the client sets. -/
structure CloseSessionRequest where
  deleteSubscriptions : Bool
deriving DecidableEq

/-- Observable outcome of `Client.CloseSession`: the request sent (if any),
the returned error, and the active-session pointer afterwards. -/
structure CloseOutcome where
  sent : Option CloseSessionRequest
  err : Option GoErr
  sessionAfter : Option Session
deriving DecidableEq

/-- `Client.CloseSession`, given the active session and the outcome of
sending the `CloseSessionRequest` (`sendErr = some e` models a failed send).
The code clears `c.session` only after `closeSession` returns nil: on error
it returns early and the pointer keeps its old value. -/
def closeSessionCall (sess : Option Session) (sendErr : Option GoErr) :
    CloseOutcome :=
  match sess with
  | Option.none =>
    -- closeSession(nil) returns nil without sending; the pointer is stored nil
    { sent := Option.none, err := Option.none, sessionAfter := Option.none }
  | Option.some s =>
    match sendErr with
    | Option.some e =>
      { sent := Option.some { deleteSubscriptions := true }
        err := Option.some e
        sessionAfter := Option.some s }
    | Option.none =>
      { sent := Option.some { deleteSubscriptions := true }
        err := Option.none
        sessionAfter := Option.none }

/-- Concrete session used in counterexamples and witnesses. -/
def sampleSession : Session :=
  { authenticationToken := 1, serverCertificate := [4], serverNonce := [5] }

/-! ### Subscription registry (`client.go`: `Subscribe`, `registerSubscription`)

The registry `c.subs : map[uint32]*Subscription` is modelled as an
association list of (id, payload) pairs; `payload` abstracts the
`*Subscription` value. -/

/-- Lookup in the registry, modelling `c.subs[id]`. -/
def lookupSub : List (Nat × Nat) → Nat → Option Nat
  | [], _ => Option.none
  | (k, v) :: rest, id => if k = id then Option.some v else lookupSub rest id

/-- Errors returned by the registry-inserting operations: a `ua.StatusCode`
or the `errors.Errorf("SubscriptionID %d already registered", ...)` value. -/
inductive SubRegErr where
  | statusErr (code : Nat)
  | duplicateErr (id : Nat)
deriving DecidableEq

/-- The registry step of `Client.Subscribe` after a successful
`CreateSubscriptionResponse` with id `id`: reject id 0 or an id already in
`c.subs` with `StatusBadSubscriptionIDInvalid`, otherwise insert. -/
def subscribeInsert (subs : List (Nat × Nat)) (id payload : Nat) :
    Except SubRegErr (List (Nat × Nat)) :=
  if id = 0 ∨ (lookupSub subs id).isSome then
    Except.error (SubRegErr.statusErr StatusBadSubscriptionIDInvalid)
  else Except.ok ((id, payload) :: subs)

/-- `Client.registerSubscription`: id 0 is rejected with
`StatusBadSubscriptionIDInvalid`; an id already registered is rejected with
an "already registered" error; otherwise the subscription is inserted. -/
def registerSubscription (subs : List (Nat × Nat)) (id payload : Nat) :
    Except SubRegErr (List (Nat × Nat)) :=
  if id = 0 then
    Except.error (SubRegErr.statusErr StatusBadSubscriptionIDInvalid)
  else if (lookupSub subs id).isSome then
    Except.error (SubRegErr.duplicateErr id)
  else Except.ok ((id, payload) :: subs)

/-- A registry-mutating operation: the registry step of `Subscribe`, or
`registerSubscription`. -/
inductive SubOp where
  | subscribe (id payload : Nat)
  | register (id payload : Nat)

/-- Apply one operation; on rejection the registry is unchanged (the Go
functions return the error before touching the map). -/
def applySubOp (subs : List (Nat × Nat)) : SubOp → List (Nat × Nat)
  | SubOp.subscribe id p =>
    match subscribeInsert subs id p with
    | Except.ok s => s
    | Except.error _ => subs
  | SubOp.register id p =>
    match registerSubscription subs id p with
    | Except.ok s => s
    | Except.error _ => subs

/-- Apply a sequence of operations starting from the empty registry created
by `NewClient` (`subs: make(map[uint32]*Subscription)`). -/
def applySubOps (ops : List SubOp) : List (Nat × Nat) :=
  ops.foldl applySubOp []

/-- Registry invariant: no entry has id 0 and ids are unique. -/
def SubRegInv (subs : List (Nat × Nat)) : Prop :=
  (∀ p ∈ subs, p.1 ≠ 0) ∧ (subs.map Prod.fst).Nodup

/-! ### Republish loop (`client.go`: `sendRepublishRequests`) -/

/-- `2^32`, the modulus of Go `uint32` arithmetic. -/
def M32 : Nat := 4294967296

/-- The environment of one iteration of the republish loop: whether
`c.sessionClosed()` reports true at that point, the error returned by
`sub.republish` (`Option.none` = nil), and the `ServiceResult` of the
response (`Option.none` models a nil response, treated as `StatusBad`). -/
structure RepubStep where
  sessionClosed : Bool
  err : Option GoErr
  resStatus : Option Nat
deriving DecidableEq

/-- The body of `Client.sendRepublishRequests`, iterating over the per-step
environment.  Returns `(result, finalSeq, issued)`:
`result = Option.none` means the step list was exhausted with the loop still
running; `Option.some Option.none` models returning nil (success);
`Option.some (Option.some e)` models returning error `e`.  `finalSeq` is the
final value of the local `seq` variable (local only: the deferred
`atomic.StoreUint32` does not see it, since Go evaluated its argument at
defer time), and `issued` is the list of `RetransmitSequenceNumber`s of the
`RepublishRequest`s that were actually passed to `sub.republish`.  Note the
Go code builds the request with `seq+1` and increments `seq` before
checking `c.sessionClosed()`, so an aborted iteration still advances the
local `seq` without issuing its request. -/
def republishLoop : List RepubStep → Nat →
    Option (Option GoErr) × Nat × List Nat
  | [], seq => (Option.none, seq, [])
  | step :: rest, seq =>
    let r := (seq + 1) % M32
    if step.sessionClosed then
      (Option.some (Option.some (GoErr.status StatusBadSessionClosed)), r, [])
    else
      match step.err with
      | Option.some e =>
        if e = GoErr.status StatusBadMessageNotAvailable then
          (Option.some Option.none, r, [r])
        else
          (Option.some (Option.some e), r, [r])
      | Option.none =>
        let st := step.resStatus.getD StatusBad
        if st = StatusOK then
          ((republishLoop rest r).1, (republishLoop rest r).2.1,
            r :: (republishLoop rest r).2.2)
        else
          (Option.some (Option.some (GoErr.status st)), r, [r])

/-- `Client.sendRepublishRequests` as observed through
`sub.lastSequenceNumber`: the returned error and the value the deferred
`atomic.StoreUint32` writes back into the field.  Go evaluates the
arguments of a deferred call when the `defer` statement executes, so the
store writes the initially loaded `lastSeq` — the loop's increments affect
only the local `seq` variable and are never persisted. -/
def sendRepublishRequests (steps : List RepubStep) (lastSeq : Nat) :
    Option (Option GoErr) × Nat :=
  ((republishLoop steps lastSeq).1, lastSeq)

/-- A loop iteration that recovers one notification message and continues:
session open, nil error, response `ServiceResult = StatusOK`. -/
def isSuccessStep (s : RepubStep) : Bool :=
  !s.sessionClosed && s.err.isNone &&
    decide (s.resStatus.getD StatusBad = StatusOK)

/-- Number of notification messages successfully recovered in a run of the
republish loop: the length of the longest prefix of success iterations. -/
def successPrefixLen : List RepubStep → Nat
  | [] => 0
  | s :: rest => if isSuccessStep s then successPrefixLen rest + 1 else 0

/-! ### The `restoreSubscriptions` case of `Client.monitor` -/

/-- The `restoreSubscriptions` branch of the monitor's recovery loop, up to
the computation of the restore set.  `subIDs` is `c.subscriptionIDs()`;
`transferRes` is the outcome of `c.transferSubscriptions(subIDs)`
(`Option.none` = the call returned an error, `Option.some codes` = per-id
`StatusCode`s of `res.Results`, paired with `subIDs` positionally);
`repubFails id` tells whether `c.republishSubscription(id)` returns a
non-nil error.  Result: `(subsToRepublish, subsToRestore)` as they stand
when the code reaches `c.resumeSubscriptions(ctx)`. -/
def restoreSubscriptionsCase (subIDs : List Nat)
    (transferRes : Option (List Nat)) (repubFails : Nat → Bool) :
    List Nat × List Nat :=
  match transferRes with
  | Option.none => ([], subIDs)
  | Option.some codes =>
    let paired := subIDs.zip codes
    let toRepublish :=
      (paired.filter (fun p => !decide (p.2 = StatusBadSubscriptionIDInvalid))).map Prod.fst
    let toRestore0 :=
      (paired.filter (fun p => decide (p.2 = StatusBadSubscriptionIDInvalid))).map Prod.fst
    (toRepublish, toRestore0 ++ toRepublish.filter repubFails)

/-! ### `Client.Read` request preparation -/

/-- `ua.QualifiedName`; the zero value `&ua.QualifiedName{}` is
`⟨0, ""⟩`. -/
structure QualifiedName where
  namespaceIndex : Nat
  name : String
deriving DecidableEq

/-- The fields of a `ua.ReadValueID` the client touches. -/
structure ReadValueID where
  nodeID : Nat
  attributeID : Nat
  indexRange : String
  dataEncoding : Option QualifiedName
deriving DecidableEq

/-- `ua.AttributeIDValue`. -/
def AttributeIDValue : Nat := 13

/-- The default-filling done by `Client.Read` on a cloned `ReadValueID`:
`AttributeID` 0 becomes `AttributeIDValue` and a nil `DataEncoding` becomes
the empty `QualifiedName`. -/
def fillReadDefaults (rv : ReadValueID) : ReadValueID :=
  let rv1 :=
    if rv.attributeID = 0 then { rv with attributeID := AttributeIDValue }
    else rv
  if rv1.dataEncoding = Option.none then
    { rv1 with dataEncoding := Option.some { namespaceIndex := 0, name := "" } }
  else rv1

/-- A `ua.ReadRequest` as the caller holds it: `NodesToRead` is a slice of
pointers, modelled as indices into a heap of `ReadValueID` cells. -/
structure ReadRequestPtr where
  maxAge : Int
  timestampsToReturn : Nat
  nodesToRead : List Nat

/-- The zero `ReadValueID`, used when a pointer is dangling (Go would
panic; the model totalizes the heap read). -/
def zeroReadValueID : ReadValueID :=
  { nodeID := 0, attributeID := 0, indexRange := "", dataEncoding := Option.none }

/-- The request-preparation phase of `Client.Read`: clone every
`ReadValueID` (allocate a fresh cell holding a defaults-filled copy) and
build the request actually sent, carrying the caller's `MaxAge` and
`TimestampsToReturn` and pointers to the clones.  Returns the heap after the
allocations and the request sent. -/
def clientReadPrep (store : List ReadValueID) (req : ReadRequestPtr) :
    List ReadValueID × ReadRequestPtr :=
  let clones := req.nodesToRead.map
    (fun p => fillReadDefaults (store.getD p zeroReadValueID))
  (store ++ clones,
    { maxAge := req.maxAge
      timestampsToReturn := req.timestampsToReturn
      nodesToRead := (List.range clones.length).map (fun i => store.length + i) })

/-- Concrete heap cell used in witnesses: an entry with `AttributeID` 0 and
nil `DataEncoding`, both of which `Read` must default-fill on the clone. -/
def sampleRV : ReadValueID :=
  { nodeID := 7, attributeID := 0, indexRange := "", dataEncoding := Option.none }

/-- Concrete read request used in witnesses. -/
def sampleReadReq : ReadRequestPtr :=
  { maxAge := 2000, timestampsToReturn := 2, nodesToRead := [0] }

/-! ### `Client.Call` -/

/-- The fields of a `ua.CallResponse` the client consumes; each element of
`Results` (a `*ua.CallMethodResult`) is abstracted as a `Nat` token. -/
structure CallResponse where
  results : List Nat
deriving DecidableEq

/-- `Client.Call`: wraps the single method in a `CallRequest`; a failed send
returns the error with a nil result; a response whose `Results` does not
have exactly one element yields `StatusBadUnknownResponse`; otherwise the
single result is returned. -/
def clientCall (send : Except GoErr CallResponse) : Except GoErr Nat :=
  match send with
  | Except.error e => Except.error e
  | Except.ok res =>
    if res.results.length = 1 then Except.ok (res.results.getD 0 0)
    else Except.error (GoErr.status StatusBadUnknownResponse)

/-! ## Theorems -/

/-- C1: with auto-reconnect enabled, the initial recovery action chosen by
the monitor from the consumed channel error follows the spec table: a uacp
error with `BadSecureChannelIDInvalid` yields channel recreation,
`BadSessionIDInvalid` yields session recreation, `BadSubscriptionIDInvalid`
yields subscription restoration, a clean EOF with the client not already
closed yields channel recreation, an OS-level connection refused yields
abort, and any other error yields channel recreation. -/
theorem monitor_initial_action_table (st : ConnState) (code : Nat) :
    monitorInitialAction (Option.some (ChanErr.uacpErr StatusBadSecureChannelIDInvalid)) st true
        = Option.some ReconnectAction.createSecureChannel
  ∧ monitorInitialAction (Option.some (ChanErr.uacpErr StatusBadSessionIDInvalid)) st true
        = Option.some ReconnectAction.recreateSession
  ∧ monitorInitialAction (Option.some (ChanErr.uacpErr StatusBadSubscriptionIDInvalid)) st true
        = Option.some ReconnectAction.restoreSubscriptions
  ∧ (st ≠ ConnState.closed →
      monitorInitialAction (Option.some ChanErr.eof) st true
        = Option.some ReconnectAction.createSecureChannel)
  ∧ monitorInitialAction (Option.some ChanErr.econnrefused) st true
        = Option.some ReconnectAction.abortReconnect
  ∧ monitorInitialAction (Option.some ChanErr.otherErr) st true
        = Option.some ReconnectAction.createSecureChannel
  ∧ (code ≠ StatusBadSecureChannelIDInvalid → code ≠ StatusBadSessionIDInvalid →
      code ≠ StatusBadSubscriptionIDInvalid →
      monitorInitialAction (Option.some (ChanErr.uacpErr code)) st true
        = Option.some ReconnectAction.createSecureChannel) := by
  refine ⟨?_, ?_, ?_, ?_, ?_, ?_, ?_⟩
  · simp [monitorInitialAction]
  · simp [monitorInitialAction, StatusBadSessionIDInvalid,
      StatusBadSecureChannelIDInvalid]
  · simp [monitorInitialAction, StatusBadSubscriptionIDInvalid,
      StatusBadSecureChannelIDInvalid, StatusBadSessionIDInvalid]
  · intro h
    simp [monitorInitialAction, h]
  · simp [monitorInitialAction]
  · simp [monitorInitialAction]
  · intro hA hB hC
    simp [monitorInitialAction, hA, hB, hC]

/-- Witness for `monitor_initial_action_table` at a concrete state and a
concrete unknown status code. -/
theorem monitor_initial_action_table_witness :
    monitorInitialAction (Option.some ChanErr.eof) ConnState.disconnected true
        = Option.some ReconnectAction.createSecureChannel
  ∧ monitorInitialAction (Option.some (ChanErr.uacpErr 7)) ConnState.disconnected true
        = Option.some ReconnectAction.createSecureChannel :=
  ⟨(monitor_initial_action_table ConnState.disconnected 7).2.2.2.1 (by decide),
   (monitor_initial_action_table ConnState.disconnected 7).2.2.2.2.2.2
     (by decide) (by decide) (by decide)⟩

/-- C3 (code bug evidence): on an open channel, when signature verification
of the decoded `CreateSessionResponse` fails, `CreateSession` returns a nil
session together with a nil error — not a populated `Session` value. -/
theorem createSession_verifyFail_nil_session :
    createSession true false
        { authenticationToken := 1, serverCertificate := [2], serverNonce := [3] }
      = Except.ok Option.none := rfl

/-- C4 counterexample: with an active session, when the
`CloseSessionRequest` send fails, `CloseSession` returns the error without
clearing the active-session pointer — refuting "cleared regardless of
whether the request succeeds or fails". -/
theorem closeSession_counterexample :
    (closeSessionCall (Option.some sampleSession)
        (Option.some (GoErr.status StatusBad))).sent
      = Option.some { deleteSubscriptions := true }
  ∧ (closeSessionCall (Option.some sampleSession)
        (Option.some (GoErr.status StatusBad))).err
      = Option.some (GoErr.status StatusBad)
  ∧ ¬ ((closeSessionCall (Option.some sampleSession)
        (Option.some (GoErr.status StatusBad))).sessionAfter
      = Option.none) := by
  refine ⟨rfl, rfl, ?_⟩
  simp [closeSessionCall, sampleSession]

/-- C4 (amended): `CloseSession` sends `CloseSessionRequest` with
`DeleteSubscriptions = true` for the active session; the active-session
pointer is cleared when the request succeeds (and is already clear when no
session is active), but on a failed request the error is returned and the
pointer keeps the old session. -/
theorem closeSession_behavior (s : Session) (sendErr : Option GoErr) :
    (closeSessionCall (Option.some s) sendErr).sent
        = Option.some { deleteSubscriptions := true }
  ∧ (sendErr = Option.none →
      (closeSessionCall (Option.some s) sendErr).sessionAfter = Option.none)
  ∧ (∀ e, sendErr = Option.some e →
      (closeSessionCall (Option.some s) sendErr).sessionAfter = Option.some s
      ∧ (closeSessionCall (Option.some s) sendErr).err = Option.some e)
  ∧ (closeSessionCall Option.none sendErr).sessionAfter = Option.none := by
  refine ⟨?_, ?_, ?_, ?_⟩
  · cases sendErr <;> rfl
  · intro h; subst h; rfl
  · intro e h; subst h; exact ⟨rfl, rfl⟩
  · rfl

/-- Witness for `closeSession_behavior` at a concrete session and a failed
send. -/
theorem closeSession_behavior_witness :
    (closeSessionCall (Option.some sampleSession)
        (Option.some (GoErr.status StatusBad))).sessionAfter
      = Option.some sampleSession :=
  ((closeSession_behavior sampleSession
      (Option.some (GoErr.status StatusBad))).2.2.1
    (GoErr.status StatusBad) rfl).1

/-- C8 counterexample: with an empty configured session name and timestamp
1, the default session name is "gopcua-1", which does not start with the
literal "client-". -/
theorem sessionName_counterexample :
    sessionNameOf "" 1 = "gopcua-1"
  ∧ ¬ ((sessionNameOf "" 1).take 7 = "client-") := by
  constructor
  · rfl
  · decide

/-- C8 (amended): an empty configured session name defaults to the literal
prefix "gopcua-" followed by the Unix-nanosecond timestamp; a non-empty
configured name is used as-is. -/
theorem sessionName_default (t : Int) (cfgName : String) :
    sessionNameOf "" t = "gopcua-" ++ toString t
  ∧ (cfgName ≠ "" → sessionNameOf cfgName t = cfgName) := by
  constructor
  · rfl
  · intro h
    simp [sessionNameOf, h]

/-- Witness for `sessionName_default` at a concrete timestamp and name. -/
theorem sessionName_default_witness :
    sessionNameOf "" 5 = "gopcua-" ++ toString (5 : Int)
  ∧ sessionNameOf "dev" 5 = "dev" :=
  ⟨(sessionName_default 5 "dev").1, (sessionName_default 5 "dev").2 (by decide)⟩

/-- C10: `Call` returns the send error with no result when the send fails,
`StatusBadUnknownResponse` when the `CallResponse` does not carry exactly
one result, and the single `CallMethodResult` otherwise. -/
theorem call_behavior (e : GoErr) (res : CallResponse) :
    clientCall (Except.error e) = Except.error e
  ∧ (res.results.length ≠ 1 →
      clientCall (Except.ok res)
        = Except.error (GoErr.status StatusBadUnknownResponse))
  ∧ (res.results.length = 1 →
      clientCall (Except.ok res) = Except.ok (res.results.getD 0 0)) := by
  refine ⟨rfl, ?_, ?_⟩
  · intro h
    simp [clientCall, h]
  · intro h
    simp [clientCall, h]

/-- Witness for `call_behavior` at concrete responses with zero, one and two
results. -/
theorem call_behavior_witness :
    clientCall (Except.ok { results := [] })
        = Except.error (GoErr.status StatusBadUnknownResponse)
  ∧ clientCall (Except.ok { results := [42] }) = Except.ok 42
  ∧ clientCall (Except.ok { results := [1, 2] })
        = Except.error (GoErr.status StatusBadUnknownResponse) :=
  ⟨(call_behavior (GoErr.status 0) { results := [] }).2.1 (by decide),
   (call_behavior (GoErr.status 0) { results := [42] }).2.2 (by decide),
   (call_behavior (GoErr.status 0) { results := [1, 2] }).2.1 (by decide)⟩

/-- Registry lookup succeeds exactly for ids present among the keys. -/
theorem lookupSub_isSome_iff (subs : List (Nat × Nat)) (id : Nat) :
    (lookupSub subs id).isSome = true ↔ id ∈ subs.map Prod.fst := by
  induction subs with
  | nil => simp [lookupSub]
  | cons p rest ih =>
    obtain ⟨k, v⟩ := p
    by_cases hk : k = id
    · subst hk
      simp [lookupSub]
    · simp [lookupSub, hk, ih, Ne.symm hk]

/-- Prepending a fresh nonzero id preserves the invariant. -/
theorem SubRegInv_cons (subs : List (Nat × Nat)) (id p : Nat)
    (h : SubRegInv subs) (hid0 : id ≠ 0) (hnotin : id ∉ subs.map Prod.fst) :
    SubRegInv ((id, p) :: subs) := by
  obtain ⟨h0, hnd⟩ := h
  constructor
  · intro q hq
    rcases List.mem_cons.mp hq with rfl | hq
    · exact hid0
    · exact h0 q hq
  · rw [List.map_cons, List.nodup_cons]
    exact ⟨hnotin, hnd⟩

/-- One registry operation preserves the invariant. -/
theorem applySubOp_inv (subs : List (Nat × Nat)) (op : SubOp)
    (h : SubRegInv subs) : SubRegInv (applySubOp subs op) := by
  cases op with
  | subscribe id p =>
    by_cases hc : id = 0 ∨ (lookupSub subs id).isSome
    · have heq : applySubOp subs (SubOp.subscribe id p) = subs := by
        simp [applySubOp, subscribeInsert, hc]
      rw [heq]; exact h
    · push_neg at hc
      have hid0 : id ≠ 0 := hc.1
      have hins : (lookupSub subs id).isSome = false := by
        simpa using hc.2
      have heq : applySubOp subs (SubOp.subscribe id p) = (id, p) :: subs := by
        simp [applySubOp, subscribeInsert, hid0, hins]
      rw [heq]
      refine SubRegInv_cons subs id p h hid0 ?_
      rw [← lookupSub_isSome_iff]
      simp [hins]
  | register id p =>
    by_cases hid0 : id = 0
    · have heq : applySubOp subs (SubOp.register id p) = subs := by
        simp [applySubOp, registerSubscription, hid0]
      rw [heq]; exact h
    · by_cases hins : (lookupSub subs id).isSome = true
      · have heq : applySubOp subs (SubOp.register id p) = subs := by
          simp [applySubOp, registerSubscription, hid0, hins]
        rw [heq]; exact h
      · have heq : applySubOp subs (SubOp.register id p) = (id, p) :: subs := by
          simp [applySubOp, registerSubscription, hid0, hins]
        rw [heq]
        refine SubRegInv_cons subs id p h hid0 ?_
        rw [← lookupSub_isSome_iff]
        exact hins

/-- Folding registry operations preserves the invariant. -/
theorem foldl_applySubOp_inv (ops : List SubOp) (subs : List (Nat × Nat))
    (h : SubRegInv subs) : SubRegInv (List.foldl applySubOp subs ops) := by
  induction ops generalizing subs with
  | nil => exact h
  | cons op ops ih => exact ih _ (applySubOp_inv subs op h)

/-- C5: starting from the empty registry of `NewClient`, any sequence of
`Subscribe` and `registerSubscription` operations leaves the registry with
no id-0 entry and no duplicate ids; a `CreateSubscription` response carrying
id 0 or an id already registered is rejected (`Subscribe` with
`StatusBadSubscriptionIDInvalid`, `registerSubscription` with an error);
and a successful insertion never changes what existing ids map to. -/
theorem subscription_registry_invariant (ops : List SubOp)
    (subs subs' : List (Nat × Nat)) (id p k : Nat) :
    SubRegInv (applySubOps ops)
  ∧ ((id = 0 ∨ (lookupSub subs id).isSome) →
      subscribeInsert subs id p
          = Except.error (SubRegErr.statusErr StatusBadSubscriptionIDInvalid)
      ∧ ∃ e, registerSubscription subs id p = Except.error e)
  ∧ ((subscribeInsert subs id p = Except.ok subs'
        ∨ registerSubscription subs id p = Except.ok subs') →
      k ∈ subs.map Prod.fst → lookupSub subs' k = lookupSub subs k) := by
  refine ⟨?_, ?_, ?_⟩
  · exact foldl_applySubOp_inv ops [] ⟨by simp, by simp⟩
  · intro hrej
    refine ⟨by simp [subscribeInsert, hrej], ?_⟩
    rcases hrej with h0 | hins
    · exact ⟨SubRegErr.statusErr StatusBadSubscriptionIDInvalid,
        by simp [registerSubscription, h0]⟩
    · by_cases h0 : id = 0
      · exact ⟨SubRegErr.statusErr StatusBadSubscriptionIDInvalid,
          by simp [registerSubscription, h0]⟩
      · exact ⟨SubRegErr.duplicateErr id,
          by simp [registerSubscription, h0, hins]⟩
  · intro hok hk
    have hnotin : id ∉ subs.map Prod.fst := by
      rw [← lookupSub_isSome_iff]
      intro hins
      rcases hok with hok | hok
      · simp [subscribeInsert, hins] at hok
      · by_cases h0 : id = 0
        · simp [registerSubscription, h0] at hok
        · simp [registerSubscription, h0, hins] at hok
    have hid0 : id ≠ 0 := by
      intro h0
      rcases hok with hok | hok
      · simp [subscribeInsert, h0] at hok
      · simp [registerSubscription, h0] at hok
    have hins : (lookupSub subs id).isSome = false := by
      rw [Bool.eq_false_iff]
      intro ht
      exact hnotin ((lookupSub_isSome_iff subs id).mp ht)
    have hs : subs' = (id, p) :: subs := by
      rcases hok with hok | hok
      · simp [subscribeInsert, hid0, hins] at hok
        exact hok.symm
      · simp [registerSubscription, hid0, hins] at hok
        exact hok.symm
    subst hs
    have hne : id ≠ k := fun he => hnotin (he ▸ hk)
    simp [lookupSub, hne]

/-- Witness for `subscription_registry_invariant`: a concrete op sequence,
a concrete rejected duplicate, and a concrete preserved entry. -/
theorem subscription_registry_invariant_witness :
    SubRegInv (applySubOps [SubOp.subscribe 1 10, SubOp.register 2 11])
  ∧ subscribeInsert [(1, 10)] 1 20
      = Except.error (SubRegErr.statusErr StatusBadSubscriptionIDInvalid)
  ∧ lookupSub [(2, 11), (1, 10)] 1 = lookupSub [(1, 10)] 1 :=
  ⟨(subscription_registry_invariant [SubOp.subscribe 1 10, SubOp.register 2 11]
      [] [] 0 0 0).1,
   ((subscription_registry_invariant [] [(1, 10)] [] 1 20 0).2.1
      (Or.inr (by decide))).1,
   (subscription_registry_invariant [] [(1, 10)] [(2, 11), (1, 10)] 2 11 1).2.2
      (Or.inl rfl) (by decide)⟩

/-- C7 counterexample: with two subscriptions whose transfers both succeed
and where only the republish of id 2 fails (a partial republish failure),
the restore set is `[2]` — id 1, a republish target, is not added.  This
refutes "all republish targets are added to the restore set". -/
theorem restoreSubscriptions_counterexample :
    (restoreSubscriptionsCase [1, 2] (Option.some [0, 0]) (fun n => n == 2)).1
        = [1, 2]
  ∧ (fun n => n == 2) 1 = false
  ∧ (fun n => n == 2) 2 = true
  ∧ (restoreSubscriptionsCase [1, 2] (Option.some [0, 0]) (fun n => n == 2)).2
        = [2]
  ∧ (1 : Nat) ∉
      (restoreSubscriptionsCase [1, 2] (Option.some [0, 0]) (fun n => n == 2)).2 := by
  refine ⟨?_, rfl, rfl, ?_, ?_⟩ <;> decide

/-- C7 (amended): in the `restoreSubscriptions` step, the restore set
contains exactly the ids whose transfer result was
`BadSubscriptionIDInvalid` together with those republish targets whose
republish failed — not all republish targets; when the transfer call itself
fails, all ids are restored. -/
theorem restoreSubscriptions_restore_set (subIDs codes : List Nat)
    (repubFails : Nat → Bool) (id : Nat) :
    (id ∈ (restoreSubscriptionsCase subIDs (Option.some codes) repubFails).2 ↔
      (∃ c, (id, c) ∈ subIDs.zip codes ∧ c = StatusBadSubscriptionIDInvalid)
      ∨ (id ∈ (restoreSubscriptionsCase subIDs (Option.some codes) repubFails).1
          ∧ repubFails id = true))
  ∧ (restoreSubscriptionsCase subIDs Option.none repubFails).2 = subIDs := by
  constructor
  · simp only [restoreSubscriptionsCase, List.mem_append, List.mem_filter,
      List.mem_map]
    constructor
    · rintro (⟨p, ⟨hp, hc⟩, rfl⟩ | ⟨⟨p, ⟨hp, hc⟩, rfl⟩, hf⟩)
      · simp only [decide_eq_true_eq] at hc
        exact Or.inl ⟨p.2, hp, hc⟩
      · exact Or.inr ⟨⟨p, ⟨hp, hc⟩, rfl⟩, hf⟩
    · rintro (⟨c, hp, hc⟩ | ⟨⟨p, ⟨hp, hc⟩, rfl⟩, hf⟩)
      · subst hc
        exact Or.inl ⟨(id, StatusBadSubscriptionIDInvalid), ⟨hp, by simp⟩, rfl⟩
      · exact Or.inr ⟨⟨p, ⟨hp, hc⟩, rfl⟩, hf⟩
  · rfl

/-- Witness for `restoreSubscriptions_restore_set` at concrete inputs. -/
theorem restoreSubscriptions_restore_set_witness :
    ((3 : Nat) ∈ (restoreSubscriptionsCase [1, 3]
        (Option.some [0, StatusBadSubscriptionIDInvalid]) (fun _ => false)).2 ↔
      (∃ c, ((3 : Nat), c) ∈ [(1, 0), (3, StatusBadSubscriptionIDInvalid)]
          ∧ c = StatusBadSubscriptionIDInvalid)
      ∨ ((3 : Nat) ∈ (restoreSubscriptionsCase [1, 3]
          (Option.some [0, StatusBadSubscriptionIDInvalid]) (fun _ => false)).1
          ∧ false = true))
  ∧ (restoreSubscriptionsCase [1, 3] Option.none (fun _ => false)).2 = [1, 3] :=
  restoreSubscriptions_restore_set [1, 3] [0, StatusBadSubscriptionIDInvalid]
    (fun _ => false) 3

/-- Old heap cells are unchanged by appending clones. -/
theorem getD_append_left {α : Type} (l1 l2 : List α) (i : Nat) (d : α)
    (h : i < l1.length) : (l1 ++ l2).getD i d = l1.getD i d := by
  induction l1 generalizing i with
  | nil => simp at h
  | cons a l1 ih =>
    cases i with
    | zero => rfl
    | succ i =>
      simp only [List.cons_append, List.getD_cons_succ]
      exact ih i (by simpa using h)

/-- Reading just past a list lands in the appended tail. -/
theorem getD_append_right {α : Type} (l1 l2 : List α) (j : Nat) (d : α) :
    (l1 ++ l2).getD (l1.length + j) d = l2.getD j d := by
  induction l1 with
  | nil => simp
  | cons a l1 ih =>
    simpa [List.cons_append, Nat.succ_add] using ih

/-- C9: `Read` leaves the caller's `ReadRequest` and its `ReadValueID`
cells unchanged: every pre-existing heap cell keeps its value, and the
request sent carries the caller's `MaxAge` and `TimestampsToReturn` with
fresh cells holding defaults-filled copies (`AttributeID` 0 becomes the
Value attribute, nil `DataEncoding` becomes the empty `QualifiedName`). -/
theorem read_frame_and_defaults (store : List ReadValueID)
    (req : ReadRequestPtr) (d : ReadValueID) :
    (∀ i, i < store.length →
      (clientReadPrep store req).1.getD i d = store.getD i d)
  ∧ (clientReadPrep store req).2.maxAge = req.maxAge
  ∧ (clientReadPrep store req).2.timestampsToReturn = req.timestampsToReturn
  ∧ (clientReadPrep store req).2.nodesToRead.length = req.nodesToRead.length
  ∧ (∀ j, j < req.nodesToRead.length →
      (clientReadPrep store req).2.nodesToRead.getD j 0 = store.length + j
      ∧ (clientReadPrep store req).1.getD (store.length + j) d
          = fillReadDefaults
              (store.getD (req.nodesToRead.getD j 0) zeroReadValueID)) := by
  refine ⟨?_, rfl, rfl, by simp [clientReadPrep], ?_⟩
  · intro i hi
    exact getD_append_left store _ i d hi
  · intro j hj
    constructor
    · simp only [clientReadPrep, List.getD, List.length_map]
      rw [List.get?_map, List.get?_range hj]
      rfl
    · simp only [clientReadPrep]
      rw [getD_append_right]
      simp only [List.getD, List.get?_map, List.get?_eq_get hj]
      rfl

/-- Witness for `read_frame_and_defaults` at a concrete heap and request:
the original cell is untouched and the clone is defaults-filled. -/
theorem read_frame_and_defaults_witness :
    (clientReadPrep [sampleRV] sampleReadReq).1.getD 0 zeroReadValueID = sampleRV
  ∧ (clientReadPrep [sampleRV] sampleReadReq).1.getD 1 zeroReadValueID
      = fillReadDefaults ([sampleRV].getD (sampleReadReq.nodesToRead.getD 0 0)
          zeroReadValueID) :=
  ⟨(read_frame_and_defaults [sampleRV] sampleReadReq zeroReadValueID).1
      0 (by simp),
   ((read_frame_and_defaults [sampleRV] sampleReadReq zeroReadValueID).2.2.2.2
      0 (by simp [sampleReadReq])).2⟩

/-- A success iteration recurses after issuing its request. -/
theorem republishLoop_success_cons (step : RepubStep) (rest : List RepubStep)
    (seq : Nat) (h : isSuccessStep step = true) :
    republishLoop (step :: rest) seq =
      ((republishLoop rest ((seq + 1) % M32)).1,
       (republishLoop rest ((seq + 1) % M32)).2.1,
       (seq + 1) % M32 :: (republishLoop rest ((seq + 1) % M32)).2.2) := by
  simp only [isSuccessStep, Bool.and_eq_true, Bool.not_eq_true',
    decide_eq_true_eq, Option.isNone_iff_eq_none] at h
  obtain ⟨⟨hc, he⟩, hs⟩ := h
  simp [republishLoop, hc, he, hs]

/-- A non-success iteration terminates the loop, with the result and issued
request determined by the step: a closed session aborts with
`BadSessionClosed` before sending, `BadMessageNotAvailable` ends the loop
successfully, any other republish error is returned, and a non-OK service
result is returned as a status error. -/
theorem republishLoop_fail_head (step : RepubStep) (rest : List RepubStep)
    (seq : Nat) (h : isSuccessStep step = false) :
    (step.sessionClosed = true →
      republishLoop (step :: rest) seq
        = (Option.some (Option.some (GoErr.status StatusBadSessionClosed)),
            (seq + 1) % M32, []))
  ∧ (step.sessionClosed = false →
      step.err = Option.some (GoErr.status StatusBadMessageNotAvailable) →
      republishLoop (step :: rest) seq
        = (Option.some Option.none, (seq + 1) % M32, [(seq + 1) % M32]))
  ∧ (∀ e, step.sessionClosed = false → step.err = Option.some e →
      e ≠ GoErr.status StatusBadMessageNotAvailable →
      republishLoop (step :: rest) seq
        = (Option.some (Option.some e), (seq + 1) % M32, [(seq + 1) % M32]))
  ∧ (step.sessionClosed = false → step.err = Option.none →
      republishLoop (step :: rest) seq
        = (Option.some (Option.some (GoErr.status (step.resStatus.getD StatusBad))),
            (seq + 1) % M32, [(seq + 1) % M32])) := by
  refine ⟨?_, ?_, ?_, ?_⟩
  · intro hc
    simp [republishLoop, hc]
  · intro hc he
    simp [republishLoop, hc, he]
  · intro e hc he hne
    simp [republishLoop, hc, he, hne]
  · intro hc he
    have hs : ¬ step.resStatus.getD StatusBad = StatusOK := by
      simp only [isSuccessStep, hc, he, Bool.not_false, Option.isNone_none,
        Bool.true_and, decide_eq_false_iff_not] at h
      exact h
    simp [republishLoop, hc, he, hs]

/-- The recovered-message count of a run that decides at the first
non-success step is the length of the success prefix. -/
theorem successPrefixLen_append (pre : List RepubStep) (step : RepubStep)
    (rest : List RepubStep) (h2 : ∀ s ∈ pre, isSuccessStep s = true)
    (h3 : isSuccessStep step = false) :
    successPrefixLen (pre ++ step :: rest) = pre.length := by
  induction pre with
  | nil => simp [successPrefixLen, h3]
  | cons a pre ih =>
    have ha : isSuccessStep a = true := h2 a (by simp)
    have h2' : ∀ s ∈ pre, isSuccessStep s = true :=
      fun s hs => h2 s (by simp [hs])
    simp [successPrefixLen, ha, ih h2']

/-- Running the loop through a prefix of success iterations advances the
sequence counter by the prefix length (mod `2^32`) and issues the
consecutive requests `seq+1 … seq+len`. -/
theorem republishLoop_success_prefix (pre post : List RepubStep) (seq : Nat)
    (h1 : seq < M32) (h2 : ∀ s ∈ pre, isSuccessStep s = true) :
    republishLoop (pre ++ post) seq =
      ((republishLoop post ((seq + pre.length) % M32)).1,
       (republishLoop post ((seq + pre.length) % M32)).2.1,
       (List.range pre.length).map (fun i => (seq + i + 1) % M32)
         ++ (republishLoop post ((seq + pre.length) % M32)).2.2) := by
  induction pre generalizing seq with
  | nil =>
    simp [Nat.mod_eq_of_lt h1]
  | cons a pre ih =>
    have ha : isSuccessStep a = true := h2 a (by simp)
    have h2' : ∀ s ∈ pre, isSuccessStep s = true :=
      fun s hs => h2 s (by simp [hs])
    have hr : (seq + 1) % M32 < M32 := Nat.mod_lt _ (by norm_num [M32])
    rw [List.cons_append, republishLoop_success_cons a (pre ++ post) seq ha,
      ih ((seq + 1) % M32) hr h2']
    have hmod : ((seq + 1) % M32 + pre.length) % M32
        = (seq + (a :: pre).length) % M32 := by
      rw [Nat.mod_add_mod]
      congr 1
      simp
      omega
    rw [hmod]
    have htail : (seq + 1) % M32 ::
        (List.map (fun i => ((seq + 1) % M32 + i + 1) % M32)
            (List.range pre.length)
          ++ (republishLoop post ((seq + (a :: pre).length) % M32)).2.2)
        = List.map (fun i => (seq + i + 1) % M32)
            (List.range (a :: pre).length)
          ++ (republishLoop post ((seq + (a :: pre).length) % M32)).2.2 := by
      rw [List.length_cons, List.range_succ_eq_map, List.map_cons,
        List.map_map, List.cons_append]
      congr 1
      have hmap : List.map (fun i => ((seq + 1) % M32 + i + 1) % M32)
            (List.range pre.length)
          = List.map ((fun i => (seq + i + 1) % M32) ∘ Nat.succ)
            (List.range pre.length) := by
        refine List.map_congr_left ?_
        intro i _
        simp only [Function.comp_apply]
        rw [Nat.add_assoc ((seq + 1) % M32) i 1, Nat.mod_add_mod]
        congr 1
        omega
      rw [hmap]
    exact Prod.ext_iff.mpr ⟨rfl, Prod.ext_iff.mpr ⟨rfl, htail⟩⟩

/-- C2 counterexample: a run that recovers one notification message (the
first request succeeds with `StatusOK`) and then terminates normally on
`BadMessageNotAvailable` leaves `lastSequenceNumber` at 5: the deferred
store writes back the value captured at defer time, so the field is not
advanced to `5 + 1` — refuting "equals the value before the loop plus the
number of messages successfully recovered". -/
theorem republish_seq_counterexample :
    (sendRepublishRequests
        [{ sessionClosed := false, err := Option.none,
           resStatus := Option.some StatusOK },
         { sessionClosed := false,
           err := Option.some (GoErr.status StatusBadMessageNotAvailable),
           resStatus := Option.none }] 5).1 = Option.some Option.none
  ∧ successPrefixLen
        [{ sessionClosed := false, err := Option.none,
           resStatus := Option.some StatusOK },
         { sessionClosed := false,
           err := Option.some (GoErr.status StatusBadMessageNotAvailable),
           resStatus := Option.none }] = 1
  ∧ (sendRepublishRequests
        [{ sessionClosed := false, err := Option.none,
           resStatus := Option.some StatusOK },
         { sessionClosed := false,
           err := Option.some (GoErr.status StatusBadMessageNotAvailable),
           resStatus := Option.none }] 5).2 = 5
  ∧ ¬ ((sendRepublishRequests
        [{ sessionClosed := false, err := Option.none,
           resStatus := Option.some StatusOK },
         { sessionClosed := false,
           err := Option.some (GoErr.status StatusBadMessageNotAvailable),
           resStatus := Option.none }] 5).2
      = 5 + successPrefixLen
          [{ sessionClosed := false, err := Option.none,
             resStatus := Option.some StatusOK },
           { sessionClosed := false,
             err := Option.some (GoErr.status StatusBadMessageNotAvailable),
             resStatus := Option.none }]) := by
  refine ⟨?_, ?_, ?_, ?_⟩ <;> decide

/-- C2 (amended): for every terminating run of the republish loop with `k`
successfully recovered messages, `lastSequenceNumber` afterwards equals its
value before the loop — Go evaluates deferred-call arguments at defer time,
so the deferred `atomic.StoreUint32` writes back the initially loaded value
and the loop's increments of the local `seq` are never persisted.  In
particular the field never decreases. -/
theorem republish_preserves_lastSequenceNumber (pre : List RepubStep)
    (step : RepubStep) (rest : List RepubStep) (last : Nat)
    (h2 : ∀ s ∈ pre, isSuccessStep s = true)
    (h3 : isSuccessStep step = false) :
    (sendRepublishRequests (pre ++ step :: rest) last).2 = last
  ∧ last ≤ (sendRepublishRequests (pre ++ step :: rest) last).2
  ∧ successPrefixLen (pre ++ step :: rest) = pre.length :=
  ⟨rfl, Nat.le_refl last, successPrefixLen_append pre step rest h2 h3⟩

/-- Witness for `republish_preserves_lastSequenceNumber`: one recovered
message, then a failing republish; the field stays at 5. -/
theorem republish_preserves_lastSequenceNumber_witness :
    (sendRepublishRequests
        [{ sessionClosed := false, err := Option.none,
           resStatus := Option.some StatusOK },
         { sessionClosed := false, err := Option.none,
           resStatus := Option.some StatusBad }] 5).2 = 5
  ∧ successPrefixLen
        [{ sessionClosed := false, err := Option.none,
           resStatus := Option.some StatusOK },
         { sessionClosed := false, err := Option.none,
           resStatus := Option.some StatusBad }] = 1 :=
  ⟨(republish_preserves_lastSequenceNumber
      [{ sessionClosed := false, err := Option.none,
         resStatus := Option.some StatusOK }]
      { sessionClosed := false, err := Option.none,
        resStatus := Option.some StatusBad }
      [] 5 (by decide) (by decide)).1,
   (republish_preserves_lastSequenceNumber
      [{ sessionClosed := false, err := Option.none,
         resStatus := Option.some StatusOK }]
      { sessionClosed := false, err := Option.none,
        resStatus := Option.some StatusBad }
      [] 5 (by decide) (by decide)).2.2⟩

/-- C6: in every terminating run of the republish loop, the requests
actually issued carry consecutive `RetransmitSequenceNumber`s starting at
`last+1`; the loop returns nil (success) when the server answers
`BadMessageNotAvailable`, returns any other republish error or non-OK
service result as the error, and when the session is closed at the start of
an iteration it returns `BadSessionClosed` without issuing that iteration's
request. -/
theorem republish_loop_requests_and_termination (pre : List RepubStep)
    (step : RepubStep) (rest : List RepubStep) (last : Nat)
    (h1 : last < M32) (h2 : ∀ s ∈ pre, isSuccessStep s = true)
    (h3 : isSuccessStep step = false) :
    (republishLoop (pre ++ step :: rest) last).2.2
        = (List.range (republishLoop (pre ++ step :: rest) last).2.2.length).map
            (fun i => (last + i + 1) % M32)
  ∧ (step.sessionClosed = true →
      (republishLoop (pre ++ step :: rest) last).1
          = Option.some (Option.some (GoErr.status StatusBadSessionClosed))
      ∧ (republishLoop (pre ++ step :: rest) last).2.2.length = pre.length)
  ∧ (step.sessionClosed = false →
      step.err = Option.some (GoErr.status StatusBadMessageNotAvailable) →
      (republishLoop (pre ++ step :: rest) last).1 = Option.some Option.none
      ∧ (republishLoop (pre ++ step :: rest) last).2.2.length = pre.length + 1)
  ∧ (∀ e, step.sessionClosed = false → step.err = Option.some e →
      e ≠ GoErr.status StatusBadMessageNotAvailable →
      (republishLoop (pre ++ step :: rest) last).1
          = Option.some (Option.some e))
  ∧ (step.sessionClosed = false → step.err = Option.none →
      (republishLoop (pre ++ step :: rest) last).1
          = Option.some (Option.some
              (GoErr.status (step.resStatus.getD StatusBad)))) := by
  have hpre := republishLoop_success_prefix pre (step :: rest) last h1 h2
  have hhead := republishLoop_fail_head step rest ((last + pre.length) % M32) h3
  have hm : ((last + pre.length) % M32 + 1) % M32 = (last + pre.length + 1) % M32 :=
    Nat.mod_add_mod _ _ _
  have hissued : (republishLoop (step :: rest) ((last + pre.length) % M32)).2.2
      = if step.sessionClosed then ([] : List Nat)
        else [(last + pre.length + 1) % M32] := by
    rcases Bool.eq_false_or_eq_true step.sessionClosed with hc | hc
    · rw [(hhead.1 hc :
        republishLoop (step :: rest) ((last + pre.length) % M32) = _)]
      simp [hc]
    · cases herr : step.err with
      | none =>
        rw [(hhead.2.2.2 hc herr :
          republishLoop (step :: rest) ((last + pre.length) % M32) = _)]
        simp [hc, hm]
      | some e =>
        by_cases hbm : e = GoErr.status StatusBadMessageNotAvailable
        · subst hbm
          rw [(hhead.2.1 hc herr :
            republishLoop (step :: rest) ((last + pre.length) % M32) = _)]
          simp [hc, hm]
        · rw [(hhead.2.2.1 e hc herr hbm :
            republishLoop (step :: rest) ((last + pre.length) % M32) = _)]
          simp [hc, hm]
  refine ⟨?_, ?_, ?_, ?_, ?_⟩
  · rw [hpre]
    rcases Bool.eq_false_or_eq_true step.sessionClosed with hc | hc
    · simp [hissued, hc]
    · simp only [hissued, hc, Bool.false_eq_true, if_false,
        List.length_append, List.length_map, List.length_range,
        List.length_cons, List.length_nil]
      rw [List.range_succ, List.map_append]
      simp
  · intro hc
    rw [hpre]
    refine ⟨congrArg Prod.fst (hhead.1 hc), ?_⟩
    simp [hissued, hc]
  · intro hc he
    rw [hpre]
    refine ⟨congrArg Prod.fst (hhead.2.1 hc he), ?_⟩
    simp [hissued, hc]
  · intro e hc he hne
    rw [hpre]
    exact congrArg Prod.fst (hhead.2.2.1 e hc he hne)
  · intro hc he
    rw [hpre]
    exact congrArg Prod.fst (hhead.2.2.2 hc he)

/-- Witness for `republish_loop_requests_and_termination`: one recovered
message and then a closed session; the loop returns `BadSessionClosed`
having issued exactly one request, numbered 6. -/
theorem republish_loop_requests_and_termination_witness :
    (republishLoop
        [{ sessionClosed := false, err := Option.none,
           resStatus := Option.some StatusOK },
         { sessionClosed := true, err := Option.none,
           resStatus := Option.none }] 5).1
      = Option.some (Option.some (GoErr.status StatusBadSessionClosed))
  ∧ (republishLoop
        [{ sessionClosed := false, err := Option.none,
           resStatus := Option.some StatusOK },
         { sessionClosed := true, err := Option.none,
           resStatus := Option.none }] 5).2.2.length = 1 :=
  (republish_loop_requests_and_termination
      [{ sessionClosed := false, err := Option.none,
         resStatus := Option.some StatusOK }]
      { sessionClosed := true, err := Option.none, resStatus := Option.none }
      [] 5 (by norm_num [M32]) (by decide) (by decide)).2.1 rfl

end Opcua
